import Mathlib

/-!
Verification of the FABLAB marketplace backend (pricing engine and
order/payment lifecycle) against its natural-language specification.

The Python source is embedded shallowly: money is modelled as exact
rationals, Python's `round(x, 2)` as round-half-even on hundredths,
Python's `int(x)` as truncation toward zero, and each endpoint of
`backend/server.py` as a pure function from an explicit store state to a
new state together with an `Except` result (an HTTP error response leaves
the store untouched, since every `raise` in the source happens before or
instead of the corresponding inserts/updates).
-/

namespace Fablab

/-- Python's `round` to the nearest integer, ties to even (banker's
rounding), on exact rationals. -/
def roundHalfEven (x : ℚ) : ℤ :=
  let f := ⌊x⌋
  if x - f < 1/2 then f
  else if 1/2 < x - f then f + 1
  else if f % 2 = 0 then f else f + 1

/-- Python's `round(x, 2)`: round to 2 decimal places, ties to even. -/
def round2 (x : ℚ) : ℚ := (roundHalfEven (x * 100) : ℚ) / 100

/-- Python's `int(x)`: truncation toward zero. -/
def pyInt (x : ℚ) : ℤ := if 0 ≤ x then ⌊x⌋ else ⌈x⌉

/-- Result dictionary of `calculate_price` (utils/stl_parser.py). -/
structure Pricing where
  volume_cm3 : ℚ
  material : String
  rate_per_cm3 : ℚ
  base_cost : ℚ
  platform_margin : ℚ
  creator_royalty_percent : ℚ
  creator_royalty : ℚ
  final_price : ℚ
  deriving Repr, DecidableEq

/-- `material_rates.get(material, 5)`: PLA=5, ABS=6, Resin=8, default 5. -/
def materialRate (material : String) : ℚ :=
  if material = "PLA" then 5
  else if material = "ABS" then 6
  else if material = "Resin" then 8
  else 5

/-- The default `creator_royalty_percent` of `calculate_price`. -/
def defaultRoyaltyPercent : ℚ := 10

/-- `calculate_price` from utils/stl_parser.py: base cost is volume times
material rate, platform margin is 20% of base cost, creator royalty is the
given percentage of base cost, and the final price is rounded from the sum
of the three unrounded quantities. -/
def calculate_price (volume_cm3 : ℚ) (material : String)
    (creator_royalty_percent : ℚ) : Pricing :=
  let rate := materialRate material
  let base_cost := volume_cm3 * rate
  let platform_margin := base_cost * (20/100)
  let creator_royalty := base_cost * (creator_royalty_percent / 100)
  let final_price := base_cost + platform_margin + creator_royalty
  { volume_cm3 := volume_cm3
    material := material
    rate_per_cm3 := rate
    base_cost := round2 base_cost
    platform_margin := round2 platform_margin
    creator_royalty_percent := creator_royalty_percent
    creator_royalty := round2 creator_royalty
    final_price := round2 final_price }

/-- A stored product listing (the `Product` model / `products` collection).
Entity ids are minted from a counter instead of uuid4; fields not touched
by the verified endpoints (file keys, images, timestamps) are omitted. -/
structure Product where
  id : Nat
  seller_id : String
  name : String
  description : String
  category : String
  material : String
  volume_cm3 : ℚ
  base_cost : ℚ
  platform_margin : ℚ
  creator_royalty_percent : ℚ
  creator_royalty : ℚ
  final_price : ℚ
  is_published : Bool
  is_approved : Bool
  deriving Repr, DecidableEq

/-- A stored order (the `Order` model / `orders` collection).
`product_id = none` models the source's `"custom"` sentinel for custom
prints; `seller_id` keeps the source's `"custom_print"` sentinel string. -/
structure Order where
  id : Nat
  buyer_id : String
  seller_id : String
  product_id : Option Nat
  product_name : String
  quantity : Nat
  total_amount : ℚ
  status : String
  razorpay_order_id : Option String
  razorpay_payment_id : Option String
  deriving Repr, DecidableEq

/-- A stored transaction (the `Transaction` model / `transactions`
collection). -/
structure Transaction where
  id : Nat
  order_id : Nat
  razorpay_order_id : String
  razorpay_payment_id : Option String
  amount : ℚ
  currency : String
  status : String
  deriving Repr, DecidableEq

/-- An authenticated user as supplied by `get_current_user`. -/
structure User where
  id : String
  email : String
  name : String
  role : String
  deriving Repr, DecidableEq

/-- An outbound email recorded by the email collaborator
(`email_service.send_order_confirmation` /
`send_new_order_notification_to_seller`). -/
inductive Email where
  | toBuyer (buyerEmail buyerName : String) (orderId : Nat)
      (productName : String) (quantity : Nat) (totalAmount : ℚ)
  | toSeller (sellerEmail sellerName : String) (orderId : Nat)
      (productName : String) (quantity : Nat) (totalAmount : ℚ)
  deriving Repr, DecidableEq

/-- One cart line of `OrderCreate.items`. -/
structure CartItem where
  product_id : Nat
  quantity : Nat
  deriving Repr, DecidableEq

/-- The persistent store plus the observable external effects: gateway
order-creation requests `(gateway order id, amount in minor units)` and
sent emails, in call order. `nextId` is the id supply. -/
structure State where
  users : List User
  products : List Product
  orders : List Order
  transactions : List Transaction
  gatewayOrders : List (String × ℤ)
  emails : List Email
  nextId : Nat
  deriving Repr, DecidableEq

/-- `update_one` semantics: rewrite the first element matching `p` with
`f`, leave the rest unchanged. -/
def updateFirst {α : Type} (p : α → Bool) (f : α → α) : List α → List α
  | [] => []
  | x :: rest => if p x then f x :: rest else x :: updateFirst p f rest

/-- The five statuses accepted by `update_order_status`. -/
def validStatuses : List String :=
  ["Order placed", "Printing", "Post-processing", "Shipped", "Delivered"]

/-- The spec's strict fulfillment ordering: successor of each status. -/
def specNextStatus (status : String) : Option String :=
  if status = "Order placed" then some "Printing"
  else if status = "Printing" then some "Post-processing"
  else if status = "Post-processing" then some "Shipped"
  else if status = "Shipped" then some "Delivered"
  else none

inductive UploadErr where
  | notSeller
  | invalidMaterial
  | invalidRoyalty
  deriving Repr, DecidableEq

/-- `POST /products/upload-stl` (`upload_stl`): role, material and royalty
guards, then price the (externally parsed) volume and insert an
unpublished, unapproved product. Returns the new product id. -/
def upload_stl (st : State) (user : User)
    (name description category material : String)
    (creator_royalty_percent volume_cm3 : ℚ) :
    State × Except UploadErr Nat :=
  if user.role ≠ "seller" then (st, .error .notSeller)
  else if material ∉ (["PLA", "ABS", "Resin"] : List String) then
    (st, .error .invalidMaterial)
  else if creator_royalty_percent < 0 ∨ 50 < creator_royalty_percent then
    (st, .error .invalidRoyalty)
  else
    let pricing := calculate_price volume_cm3 material creator_royalty_percent
    let product : Product :=
      { id := st.nextId
        seller_id := user.id
        name := name
        description := description
        category := category
        material := material
        volume_cm3 := pricing.volume_cm3
        base_cost := pricing.base_cost
        platform_margin := pricing.platform_margin
        creator_royalty_percent := pricing.creator_royalty_percent
        creator_royalty := pricing.creator_royalty
        final_price := pricing.final_price
        is_published := false
        is_approved := false }
    ({ st with products := st.products ++ [product], nextId := st.nextId + 1 },
      .ok product.id)

inductive VolumeErr where
  | productNotFound
  | forbiddenRole
  | notOwner
  | nonPositiveVolume
  deriving Repr, DecidableEq

/-- `PUT /products/{id}/update-volume` (`update_product_volume`): reprice
with `calculate_price(volume_cm3, product["material"])` — the royalty
argument is left at its default — and `$set` only `volume_cm3`,
`base_cost`, `platform_margin` and `final_price` on the product. -/
def update_product_volume (st : State) (user : User) (product_id : Nat)
    (volume_cm3 : ℚ) : State × Except VolumeErr Pricing :=
  match st.products.find? (fun p => p.id == product_id) with
  | none => (st, .error .productNotFound)
  | some product =>
    if user.role ∉ (["admin", "seller"] : List String) then
      (st, .error .forbiddenRole)
    else if user.role = "seller" ∧ product.seller_id ≠ user.id then
      (st, .error .notOwner)
    else if volume_cm3 ≤ 0 then (st, .error .nonPositiveVolume)
    else
      let pricing := calculate_price volume_cm3 product.material defaultRoyaltyPercent
      let products' := updateFirst (fun p => p.id == product_id)
        (fun p =>
          { p with volume_cm3 := pricing.volume_cm3
                   base_cost := pricing.base_cost
                   platform_margin := pricing.platform_margin
                   final_price := pricing.final_price })
        st.products
      ({ st with products := products' }, .ok pricing)

inductive CreateErr where
  | emptyCart
  | productNotFound (product_id : Nat)
  | productUnavailable (name : String)
  deriving Repr, DecidableEq

/-- The response of a successful checkout: gateway order id, amount in
major units, currency. -/
structure CreateResp where
  razorpay_order_id : String
  amount : ℚ
  currency : String
  deriving Repr, DecidableEq

/-- The validation/pricing loop of `create_order`: resolve each cart line,
require the product published and approved, build one pending order per
line (ids from `n` upward) and accumulate the total amount. -/
def buildOrders (st : State) (user : User) :
    List CartItem → Nat → Except CreateErr (List Order × ℚ)
  | [], _ => .ok ([], 0)
  | item :: rest, n =>
    match st.products.find? (fun p => p.id == item.product_id) with
    | none => .error (.productNotFound item.product_id)
    | some product =>
      if product.is_published && product.is_approved then
        match buildOrders st user rest (n + 1) with
        | .error e => .error e
        | .ok (os, t) =>
          .ok ({ id := n
                 buyer_id := user.id
                 seller_id := product.seller_id
                 product_id := some product.id
                 product_name := product.name
                 quantity := item.quantity
                 total_amount := product.final_price * item.quantity
                 status := "Order placed"
                 razorpay_order_id := none
                 razorpay_payment_id := none } :: os,
               product.final_price * item.quantity + t)
      else .error (.productUnavailable product.name)

/-- `POST /orders/create` (`create_order`): validate and price the cart,
request one gateway order for `int(total_amount * 100)` minor units
(`gid` is the id the gateway returns), stamp `gid` on every pending
order, persist them all, then persist one `created` transaction
referencing the first order. Every `raise` happens before any insert, so
an error leaves the store untouched. -/
def create_order (st : State) (user : User) (items : List CartItem)
    (gid : String) : State × Except CreateErr CreateResp :=
  if items.isEmpty then (st, .error .emptyCart)
  else
    match buildOrders st user items st.nextId with
    | .error e => (st, .error e)
    | .ok (pending, total_amount) =>
      let amountMinor := pyInt (total_amount * 100)
      let stamped := pending.map
        (fun o => { o with razorpay_order_id := some gid })
      match stamped with
      | [] => (st, .error .emptyCart)
      | first :: _ =>
        let txn : Transaction :=
          { id := st.nextId + stamped.length
            order_id := first.id
            razorpay_order_id := gid
            razorpay_payment_id := none
            amount := total_amount
            currency := "INR"
            status := "created" }
        ({ st with orders := st.orders ++ stamped
                   transactions := st.transactions ++ [txn]
                   gatewayOrders := st.gatewayOrders ++ [(gid, amountMinor)]
                   nextId := st.nextId + stamped.length + 1 },
          .ok { razorpay_order_id := gid, amount := total_amount, currency := "INR" })

/-- `POST /custom-print/order` (`create_custom_print_order`): price the
declared volume with the default royalty, create one order with the
`custom_print` sentinel seller, one gateway order for
`int(order_amount * 100)` minor units, and one `created` transaction. -/
def create_custom_print_order (st : State) (user : User)
    (filename material : String) (volume_cm3 : ℚ) (quantity : Nat)
    (gid : String) : State × Except CreateErr CreateResp :=
  let pricing := calculate_price volume_cm3 material defaultRoyaltyPercent
  let order_amount := pricing.final_price * quantity
  let order : Order :=
    { id := st.nextId
      buyer_id := user.id
      seller_id := "custom_print"
      product_id := none
      product_name := "Custom Print: " ++ filename
      quantity := quantity
      total_amount := order_amount
      status := "Order placed"
      razorpay_order_id := some gid
      razorpay_payment_id := none }
  let txn : Transaction :=
    { id := st.nextId + 1
      order_id := order.id
      razorpay_order_id := gid
      razorpay_payment_id := none
      amount := order_amount
      currency := "INR"
      status := "created" }
  ({ st with orders := st.orders ++ [order]
             transactions := st.transactions ++ [txn]
             gatewayOrders := st.gatewayOrders ++ [(gid, pyInt (order_amount * 100))]
             nextId := st.nextId + 2 },
    .ok { razorpay_order_id := gid, amount := order_amount, currency := "INR" })

inductive VerifyErr where
  | verificationFailed
  deriving Repr, DecidableEq

/-- The per-order payment-verification update of `verify_payment`'s
`update_many`: stamp the payment id and set status `"Order placed"` on
every order carrying the gateway order id. -/
def payOrder (gid pid : String) (o : Order) : Order :=
  if o.razorpay_order_id == some gid then
    { o with razorpay_payment_id := some pid, status := "Order placed" }
  else o

/-- The emails sent after a successful verification: for every order with
the gateway order id, a confirmation to the calling buyer, then — when the
seller account exists — a notification to the seller. -/
def confirmationEmails (users : List User) (user : User) (orders : List Order)
    (gid : String) : List Email :=
  (orders.filter (fun o => o.razorpay_order_id == some gid)).flatMap
    (fun o =>
      Email.toBuyer user.email user.name o.id o.product_name o.quantity
          o.total_amount ::
        match users.find? (fun u => u.id == o.seller_id) with
        | some s =>
          [Email.toSeller s.email s.name o.id o.product_name o.quantity
            o.total_amount]
        | none => [])

/-- `POST /orders/verify-payment` (`verify_payment`): `sigOk` is the
outcome of the gateway's signature check. On success stamp the payment id
and status `"Order placed"` on every order with the gateway order id, mark
the first matching transaction `completed`, and send the notification
emails; on failure mutate nothing and fail. -/
def verify_payment (st : State) (user : User) (gid pid : String)
    (sigOk : Bool) : State × Except VerifyErr String :=
  if sigOk then
    let orders' := st.orders.map (payOrder gid pid)
    let txns' := updateFirst (fun t => t.razorpay_order_id == gid)
      (fun t => { t with razorpay_payment_id := some pid, status := "completed" })
      st.transactions
    ({ st with orders := orders'
               transactions := txns'
               emails := st.emails ++ confirmationEmails st.users user orders' gid },
      .ok "Payment verified successfully")
  else (st, .error .verificationFailed)

inductive StatusErr where
  | adminRequired
  | invalidStatus
  | orderNotFound
  deriving Repr, DecidableEq

/-- `PUT /admin/orders/{id}/status` (`update_order_status`): admin guard,
then membership of the requested status in the five valid statuses, then
`update_one` on the order; `matched_count == 0` means no such order. -/
def update_order_status (st : State) (user : User) (order_id : Nat)
    (status : String) : State × Except StatusErr String :=
  if user.role ≠ "admin" then (st, .error .adminRequired)
  else if status ∉ validStatuses then (st, .error .invalidStatus)
  else
    let orders' := updateFirst (fun o => o.id == order_id)
      (fun o => { o with status := status }) st.orders
    if st.orders.any (fun o => o.id == order_id) then
      ({ st with orders := orders' }, .ok status)
    else (st, .error .orderNotFound)

/-- The amount a cart is worth: sum over lines of the listing's
`final_price` times the quantity (0 for a dangling reference). -/
def cartAmount (st : State) (items : List CartItem) : ℚ :=
  (items.map (fun it =>
    match st.products.find? (fun p => p.id == it.product_id) with
    | some p => p.final_price * it.quantity
    | none => 0)).sum

/-- A cart line `create_order` must reject: its listing is absent, or not
both published and approved. -/
def itemRejected (st : State) (it : CartItem) : Prop :=
  st.products.find? (fun p => p.id == it.product_id) = none ∨
  ∃ p, st.products.find? (fun p => p.id == it.product_id) = some p ∧
    (p.is_published = false ∨ p.is_approved = false)

/-- An empty store. -/
def emptyState : State :=
  { users := [], products := [], orders := [], transactions := [],
    gatewayOrders := [], emails := [], nextId := 0 }

def adminUser : User :=
  { id := "u-admin", email := "admin@fablab.test", name := "Ad", role := "admin" }

def buyerUser : User :=
  { id := "u-buyer", email := "buyer@fablab.test", name := "Bu", role := "buyer" }

def sellerUser : User :=
  { id := "u-seller", email := "seller@fablab.test", name := "Se", role := "seller" }

/-- A published, approved listing with the given id and final price. -/
def listedProduct (i : Nat) (price : ℚ) : Product :=
  { id := i, seller_id := sellerUser.id, name := "Vase", description := "d"
    category := "art", material := "PLA", volume_cm3 := 1, base_cost := price
    platform_margin := 0, creator_royalty_percent := 10, creator_royalty := 0
    final_price := price, is_published := true, is_approved := true }

/-- An order awaiting payment verification under gateway order `og-1`. -/
def placedOrder : Order :=
  { id := 0, buyer_id := buyerUser.id, seller_id := sellerUser.id
    product_id := some 0, product_name := "Vase", quantity := 1
    total_amount := 100, status := "Order placed"
    razorpay_order_id := some "og-1", razorpay_payment_id := none }

/-- The `created` transaction of the `og-1` batch. -/
def createdTxn : Transaction :=
  { id := 1, order_id := 0, razorpay_order_id := "og-1"
    razorpay_payment_id := none, amount := 100, currency := "INR"
    status := "created" }

/-- A store holding the `og-1` batch: one placed order, one created
transaction, and the seller account for the notification email. -/
def orderState : State :=
  { emptyState with users := [sellerUser], orders := [placedOrder]
                    transactions := [createdTxn], nextId := 2 }

/-- A store whose only listing is published but not yet approved. -/
def unapprovedState : State :=
  { emptyState with
      products := [{ listedProduct 0 100 with is_approved := false }]
      nextId := 1 }

/-- The spec's checkout example: listing 0 at final price 100 and listing
1 at final price 50, both purchasable. -/
def shopState : State :=
  { emptyState with
      products := [listedProduct 0 100, listedProduct 1 50], nextId := 2 }

/-- A store whose single listing has the fractional-minor-unit final
price 1.507. -/
def truncState : State :=
  { emptyState with products := [listedProduct 0 (1507/1000)], nextId := 1 }

/-- C4 counterexample: at volume 0.2008 cm³, PLA, 10% royalty, the stored
final price is 1.31 (rounding of the unrounded sum 1.3052), while rounding
the sum of the already-rounded fields 1.00 + 0.20 + 0.10 gives 1.30, so the
claim's last equation, read over the rounded output fields, fails. -/
theorem c4_counterexample :
    (0 : ℚ) ≤ 2008/10000 ∧ "PLA" ∈ (["PLA", "ABS", "Resin"] : List String) ∧
    (0 : ℚ) ≤ 10 ∧ (10 : ℚ) ≤ 50 ∧
    (calculate_price (2008/10000) "PLA" 10).base_cost = 1 ∧
    (calculate_price (2008/10000) "PLA" 10).platform_margin = 20/100 ∧
    (calculate_price (2008/10000) "PLA" 10).creator_royalty = 10/100 ∧
    (calculate_price (2008/10000) "PLA" 10).final_price = 131/100 ∧
    round2 ((calculate_price (2008/10000) "PLA" 10).base_cost +
        (calculate_price (2008/10000) "PLA" 10).platform_margin +
        (calculate_price (2008/10000) "PLA" 10).creator_royalty) = 130/100 ∧
    (calculate_price (2008/10000) "PLA" 10).final_price ≠
      round2 ((calculate_price (2008/10000) "PLA" 10).base_cost +
          (calculate_price (2008/10000) "PLA" 10).platform_margin +
          (calculate_price (2008/10000) "PLA" 10).creator_royalty) := by
  refine ⟨by norm_num, by simp, by norm_num, by norm_num, ?_, ?_, ?_, ?_, ?_, ?_⟩ <;>
    norm_num [calculate_price, materialRate, round2, roundHalfEven]

/-- C4 (amended): for every valid input, the price breakdown satisfies
`base_cost = round2 (volume * rate)`,
`platform_margin = round2 (0.20 * (volume * rate))`,
`creator_royalty = round2 ((royalty/100) * (volume * rate))`, and
`final_price = round2` of the sum of the three UNROUNDED components (not of
the rounded output fields). -/
theorem c4_price_breakdown (volume_cm3 royalty : ℚ) (material : String)
    (_hv : 0 ≤ volume_cm3)
    (_hm : material ∈ (["PLA", "ABS", "Resin"] : List String))
    (_hr0 : 0 ≤ royalty) (_hr1 : royalty ≤ 50) :
    (calculate_price volume_cm3 material royalty).base_cost =
      round2 (volume_cm3 * materialRate material) ∧
    (calculate_price volume_cm3 material royalty).platform_margin =
      round2 ((volume_cm3 * materialRate material) * (20/100)) ∧
    (calculate_price volume_cm3 material royalty).creator_royalty =
      round2 ((volume_cm3 * materialRate material) * (royalty/100)) ∧
    (calculate_price volume_cm3 material royalty).final_price =
      round2 (volume_cm3 * materialRate material
        + (volume_cm3 * materialRate material) * (20/100)
        + (volume_cm3 * materialRate material) * (royalty/100)) :=
  ⟨rfl, rfl, rfl, rfl⟩

/-- C4 witness: the amended breakdown at volume 1, PLA, royalty 10. -/
theorem c4_price_breakdown_witness :
    (calculate_price 1 "PLA" 10).base_cost = round2 (1 * materialRate "PLA") ∧
    (calculate_price 1 "PLA" 10).platform_margin =
      round2 ((1 * materialRate "PLA") * (20/100)) ∧
    (calculate_price 1 "PLA" 10).creator_royalty =
      round2 ((1 * materialRate "PLA") * (10/100)) ∧
    (calculate_price 1 "PLA" 10).final_price =
      round2 (1 * materialRate "PLA" + (1 * materialRate "PLA") * (20/100)
        + (1 * materialRate "PLA") * (10/100)) :=
  c4_price_breakdown 1 10 "PLA" (by norm_num) (by simp) (by norm_num) (by norm_num)

/-- C9: an unknown material string gets the PLA rate 5, so every numeric
field of the price breakdown coincides with the PLA breakdown. -/
theorem c9_unknown_material_fallback (volume_cm3 royalty : ℚ) (material : String)
    (hm : material ∉ (["PLA", "ABS", "Resin"] : List String)) :
    (calculate_price volume_cm3 material royalty).rate_per_cm3 =
      (calculate_price volume_cm3 "PLA" royalty).rate_per_cm3 ∧
    (calculate_price volume_cm3 material royalty).volume_cm3 =
      (calculate_price volume_cm3 "PLA" royalty).volume_cm3 ∧
    (calculate_price volume_cm3 material royalty).base_cost =
      (calculate_price volume_cm3 "PLA" royalty).base_cost ∧
    (calculate_price volume_cm3 material royalty).platform_margin =
      (calculate_price volume_cm3 "PLA" royalty).platform_margin ∧
    (calculate_price volume_cm3 material royalty).creator_royalty_percent =
      (calculate_price volume_cm3 "PLA" royalty).creator_royalty_percent ∧
    (calculate_price volume_cm3 material royalty).creator_royalty =
      (calculate_price volume_cm3 "PLA" royalty).creator_royalty ∧
    (calculate_price volume_cm3 material royalty).final_price =
      (calculate_price volume_cm3 "PLA" royalty).final_price := by
  simp only [List.mem_cons, List.not_mem_nil, or_false, not_or] at hm
  obtain ⟨h1, h2, h3⟩ := hm
  simp [calculate_price, materialRate, h1, h2, h3]

/-- C9 witness: material "Wood" prices exactly like PLA at volume 2,
royalty 10. -/
theorem c9_unknown_material_fallback_witness :
    (calculate_price 2 "Wood" 10).rate_per_cm3 =
      (calculate_price 2 "PLA" 10).rate_per_cm3 ∧
    (calculate_price 2 "Wood" 10).volume_cm3 =
      (calculate_price 2 "PLA" 10).volume_cm3 ∧
    (calculate_price 2 "Wood" 10).base_cost =
      (calculate_price 2 "PLA" 10).base_cost ∧
    (calculate_price 2 "Wood" 10).platform_margin =
      (calculate_price 2 "PLA" 10).platform_margin ∧
    (calculate_price 2 "Wood" 10).creator_royalty_percent =
      (calculate_price 2 "PLA" 10).creator_royalty_percent ∧
    (calculate_price 2 "Wood" 10).creator_royalty =
      (calculate_price 2 "PLA" 10).creator_royalty ∧
    (calculate_price 2 "Wood" 10).final_price =
      (calculate_price 2 "PLA" 10).final_price :=
  c9_unknown_material_fallback 2 10 "Wood" (by simp)

theorem updateFirst_nil {α : Type} (p : α → Bool) (f : α → α) :
    updateFirst p f [] = [] := rfl

theorem updateFirst_cons {α : Type} (p : α → Bool) (f : α → α) (x : α)
    (l : List α) :
    updateFirst p f (x :: l) =
      if p x then f x :: l else x :: updateFirst p f l := rfl

/-- If `f` preserves the predicate, `find?` on the updated list returns
the updated element. -/
theorem updateFirst_find (p : α → Bool) (f : α → α)
    (hp : ∀ x, p (f x) = p x) (l : List α) :
    ∀ t, l.find? p = some t → (updateFirst p f l).find? p = some (f t) := by
  induction l with
  | nil => intro t h; simp at h
  | cons x rest ih =>
    intro t h
    by_cases hx : p x
    · rw [List.find?_cons_of_pos _ hx, Option.some.injEq] at h
      subst h
      rw [updateFirst_cons, if_pos hx]
      exact List.find?_cons_of_pos _ (by rw [hp]; exact hx)
    · rw [List.find?_cons_of_neg _ hx] at h
      rw [updateFirst_cons, if_neg hx]
      rw [List.find?_cons_of_neg _ hx]
      exact ih t h

/-- Elements not matching the predicate survive `updateFirst`. -/
theorem mem_updateFirst_of_neg (p : α → Bool) (f : α → α) (l : List α) :
    ∀ t, t ∈ l → p t = false → t ∈ updateFirst p f l := by
  induction l with
  | nil => intro t h; simp at h
  | cons x rest ih =>
    intro t ht hpt
    rw [updateFirst_cons]
    rcases List.mem_cons.mp ht with rfl | hmem
    · rw [if_neg (by simp [hpt])]
      exact List.mem_cons_self _ _
    · by_cases hx : p x
      · rw [if_pos hx]; exact List.mem_cons_of_mem _ hmem
      · rw [if_neg hx]; exact List.mem_cons_of_mem _ (ih t hmem hpt)

/-- If some element matches, the updated image of the first match is in
the result of `updateFirst`. -/
theorem any_mem_updateFirst (p : α → Bool) (f : α → α) (l : List α) :
    l.any p = true → ∃ x, x ∈ l ∧ p x = true ∧ f x ∈ updateFirst p f l := by
  induction l with
  | nil => intro h; simp at h
  | cons x rest ih =>
    intro h
    by_cases hx : p x
    · exact ⟨x, List.mem_cons_self _ _, hx, by
        rw [updateFirst_cons, if_pos hx]; exact List.mem_cons_self _ _⟩
    · have hrest : rest.any p = true := by
        rcases List.any_eq_true.mp h with ⟨y, hy, hpy⟩
        rcases List.mem_cons.mp hy with rfl | hmem
        · exact absurd hpy hx
        · exact List.any_eq_true.mpr ⟨y, hmem, hpy⟩
      obtain ⟨y, hy, hpy, hmem⟩ := ih hrest
      exact ⟨y, List.mem_cons_of_mem _ hy, hpy, by
        rw [updateFirst_cons, if_neg hx]; exact List.mem_cons_of_mem _ hmem⟩

/-- `updateFirst` is idempotent when `f` is predicate-preserving and
idempotent. -/
theorem updateFirst_idem (p : α → Bool) (f : α → α)
    (hp : ∀ x, p (f x) = p x) (hf : ∀ x, f (f x) = f x) (l : List α) :
    updateFirst p f (updateFirst p f l) = updateFirst p f l := by
  induction l with
  | nil => rfl
  | cons x rest ih =>
    by_cases hx : p x
    · rw [updateFirst_cons, if_pos hx, updateFirst_cons,
        if_pos (by rw [hp]; exact hx), hf]
    · rw [updateFirst_cons, if_neg hx, updateFirst_cons, if_neg hx, ih]

/-- Pointwise relatedness to the image gives `Forall₂` with the mapped
list. -/
theorem forall₂_map_self {α : Type} (R : α → α → Prop) (f : α → α)
    (l : List α) (h : ∀ a ∈ l, R a (f a)) : List.Forall₂ R l (l.map f) := by
  induction l with
  | nil => exact List.Forall₂.nil
  | cons x rest ih =>
    exact List.Forall₂.cons (h x (List.mem_cons_self _ _))
      (ih fun a ha => h a (List.mem_cons_of_mem _ ha))

/-- The per-order payment update keeps the gateway order id, hence its
own trigger. -/
theorem payOrder_matches (gid pid : String) (o : Order) :
    (payOrder gid pid o).razorpay_order_id = o.razorpay_order_id := by
  unfold payOrder
  by_cases h : o.razorpay_order_id == some gid
  · rw [if_pos h]
  · rw [if_neg h]

/-- The per-order payment update is idempotent. -/
theorem payOrder_idem (gid pid : String) (o : Order) :
    payOrder gid pid (payOrder gid pid o) = payOrder gid pid o := by
  by_cases h : o.razorpay_order_id == some gid <;> simp [payOrder, h]

/-- Every order built by the cart loop starts in `"Order placed"` with no
gateway ids and the calling buyer. -/
theorem buildOrders_status (st : State) (user : User) :
    ∀ (items : List CartItem) (n : Nat) (os : List Order) (t : ℚ),
      buildOrders st user items n = .ok (os, t) →
      ∀ o ∈ os, o.status = "Order placed" ∧ o.razorpay_order_id = none ∧
        o.razorpay_payment_id = none ∧ o.buyer_id = user.id := by
  intro items
  induction items with
  | nil =>
    intro n os t h o ho
    simp only [buildOrders, Except.ok.injEq, Prod.mk.injEq] at h
    rw [← h.1] at ho
    simp at ho
  | cons it rest ih =>
    intro n os t h o ho
    cases hfind : st.products.find? (fun p => p.id == it.product_id) with
    | none => simp [buildOrders, hfind] at h
    | some product =>
      by_cases hpa : (product.is_published && product.is_approved) = true
      · cases hbo : buildOrders st user rest (n + 1) with
        | error e => simp [buildOrders, hfind, hpa, hbo] at h
        | ok pr =>
          obtain ⟨os', t'⟩ := pr
          simp only [buildOrders, hfind, hpa, hbo, if_true, Except.ok.injEq,
            Prod.mk.injEq] at h
          rw [← h.1] at ho
          rcases List.mem_cons.mp ho with rfl | hmem
          · exact ⟨rfl, rfl, rfl, rfl⟩
          · exact ih (n + 1) os' t' hbo o hmem
      · simp [buildOrders, hfind, hpa] at h

/-- When every cart line resolves to a published, approved listing, the
cart loop succeeds with one order per line (ids from `n` upward) and the
cart's total amount. -/
theorem buildOrders_ok (st : State) (user : User) :
    ∀ (items : List CartItem) (n : Nat),
      (∀ it ∈ items, ∃ p,
          st.products.find? (fun q => q.id == it.product_id) = some p ∧
          p.is_published = true ∧ p.is_approved = true) →
      ∃ os, buildOrders st user items n = .ok (os, cartAmount st items) ∧
        os.length = items.length ∧
        ∀ o1, os.head? = some o1 → o1.id = n := by
  intro items
  induction items with
  | nil =>
    intro n _
    exact ⟨[], by simp [buildOrders, cartAmount], rfl, by simp⟩
  | cons it rest ih =>
    intro n hall
    obtain ⟨p, hfind, hpub, happr⟩ := hall it (List.mem_cons_self _ _)
    obtain ⟨os, hbo, hlen, _⟩ :=
      ih (n + 1) (fun x hx => hall x (List.mem_cons_of_mem _ hx))
    refine ⟨{ id := n, buyer_id := user.id, seller_id := p.seller_id,
              product_id := some p.id, product_name := p.name,
              quantity := it.quantity,
              total_amount := p.final_price * it.quantity,
              status := "Order placed", razorpay_order_id := none,
              razorpay_payment_id := none } :: os,
      ?_, by simp [hlen], ?_⟩
    · simp [buildOrders, hfind, hpub, happr, hbo, cartAmount]
    · intro o1 h1
      rw [List.head?_cons, Option.some.injEq] at h1
      rw [← h1]

/-- A cart containing a rejected line makes the cart loop fail. -/
theorem buildOrders_err (st : State) (user : User) :
    ∀ (items : List CartItem) (n : Nat),
      (∃ it ∈ items, itemRejected st it) →
      ∃ e, buildOrders st user items n = .error e := by
  intro items
  induction items with
  | nil => intro n h; simp at h
  | cons it rest ih =>
    intro n h
    cases hfind : st.products.find? (fun p => p.id == it.product_id) with
    | none =>
      exact ⟨.productNotFound it.product_id, by simp [buildOrders, hfind]⟩
    | some p =>
      by_cases hpa : (p.is_published && p.is_approved) = true
      · have hrest : ∃ x ∈ rest, itemRejected st x := by
          obtain ⟨x, hx, hrej⟩ := h
          rcases List.mem_cons.mp hx with rfl | hmem
          · rcases hrej with hnone | ⟨q, hq, hbad⟩
            · rw [hfind] at hnone; exact absurd hnone (by simp)
            · rw [hfind, Option.some.injEq] at hq
              subst hq
              rcases hbad with hb | hb <;> simp [hb] at hpa
          · exact ⟨x, hmem, hrej⟩
        obtain ⟨e, he⟩ := ih (n + 1) hrest
        exact ⟨e, by simp [buildOrders, hfind, hpa, he]⟩
      · exact ⟨.productUnavailable p.name, by simp [buildOrders, hfind, hpa]⟩

/-- C1: the pricing invariant breaks. Upload a PLA product with 20%
creator royalty and volume 10 cm³ (base 50, margin 10, royalty 10, final
70), then update its volume to 30 cm³: `update_product_volume` reprices
with the DEFAULT 10% royalty and rewrites only volume, base cost, margin
and final price, so the stored listing ends with final_price 195 but
base + margin + royalty = 150 + 30 + 10 = 190, and creator_royalty 10
inconsistent with the stored 20% of base 150. -/
theorem c1_royalty_not_repriced :
    ∃ p : Product,
      (update_product_volume
          (upload_stl emptyState sellerUser "Vase" "d" "art" "PLA" 20 10).1
          sellerUser 0 30).1.products = [p] ∧
      p.creator_royalty_percent = 20 ∧ p.base_cost = 150 ∧
      p.platform_margin = 30 ∧ p.creator_royalty = 10 ∧ p.final_price = 195 ∧
      p.final_price ≠ p.base_cost + p.platform_margin + p.creator_royalty ∧
      p.creator_royalty ≠
        round2 (p.base_cost * (p.creator_royalty_percent / 100)) := by
  refine ⟨{ id := 0, seller_id := "u-seller", name := "Vase", description := "d",
            category := "art", material := "PLA", volume_cm3 := 30,
            base_cost := 150, platform_margin := 30,
            creator_royalty_percent := 20, creator_royalty := 10,
            final_price := 195, is_published := false, is_approved := false },
    ?_, rfl, rfl, rfl, rfl, rfl, by norm_num, ?_⟩
  · norm_num [upload_stl, update_product_volume, calculate_price, materialRate,
      round2, roundHalfEven, defaultRoyaltyPercent, updateFirst, emptyState,
      sellerUser, List.find?]
  · norm_num [round2, roundHalfEven]

/-- C2 counterexample: on an order in `"Order placed"`, an admin request
for `"Delivered"` is accepted and lands the order in `"Delivered"`, though
the spec's successor of `"Order placed"` is `"Printing"`: steps are
skipped, so not every accepted transition moves to the next state. -/
theorem c2_counterexample :
    (update_order_status orderState adminUser 0 "Delivered").2 =
      Except.ok "Delivered" ∧
    (update_order_status orderState adminUser 0 "Delivered").1.orders =
      [{ placedOrder with status := "Delivered" }] ∧
    placedOrder.status = "Order placed" ∧
    specNextStatus "Order placed" = some "Printing" ∧
    ("Delivered" : String) ≠ "Printing" := by
  refine ⟨?_, ?_, rfl, by norm_num [specNextStatus], by simp⟩ <;>
    norm_num [update_order_status, validStatuses, orderState, emptyState,
      adminUser, placedOrder, updateFirst]

/-- C2 (amended): `update_order_status` checks only the admin role, the
five-status vocabulary and order existence; an accepted transition writes
the requested status verbatim, whatever the order's current status, and
conversely any of the five statuses is accepted on any existing order. -/
theorem c2_transition_unconstrained (st : State) (user : User) (oid : Nat)
    (status : String) :
    (∀ st' r, update_order_status st user oid status = (st', Except.ok r) →
      user.role = "admin" ∧ status ∈ validStatuses ∧ r = status ∧
      ∃ o' ∈ st'.orders, o'.id = oid ∧ o'.status = status) ∧
    (user.role = "admin" → status ∈ validStatuses →
      (∃ o ∈ st.orders, o.id = oid) →
      ∃ st₂, update_order_status st user oid status = (st₂, Except.ok status)) := by
  constructor
  · intro st' r h
    simp only [update_order_status] at h
    split_ifs at h with h1 h2 h3
    · simp at h
    · simp only [Prod.mk.injEq, Except.ok.injEq] at h
      obtain ⟨hst, hr⟩ := h
      obtain ⟨x, hx, hpx, hmem⟩ := any_mem_updateFirst
        (fun o => o.id == oid) (fun o => { o with status := status })
        st.orders h3
      subst hst
      exact ⟨not_not.mp h1, h2, hr.symm,
        { x with status := status }, hmem, by simpa using hpx, rfl⟩
    · simp at h
    · simp at h
  · intro hrole hmem ho
    obtain ⟨o, homem, hid⟩ := ho
    have hany : st.orders.any (fun o => o.id == oid) = true :=
      List.any_eq_true.mpr ⟨o, homem, by simp [hid]⟩
    exact ⟨_, by
      simp only [update_order_status]
      rw [if_neg (by simp [hrole]), if_neg (by simp [hmem]), if_pos hany]⟩

/-- C2 witness: the amended acceptance at a concrete store — `"Shipped"`
is accepted on the existing order 0 whatever its current status. -/
theorem c2_transition_unconstrained_witness :
    ∃ st₂, update_order_status orderState adminUser 0 "Shipped" =
      (st₂, Except.ok "Shipped") :=
  (c2_transition_unconstrained orderState adminUser 0 "Shipped").2
    rfl (by norm_num [validStatuses])
    ⟨placedOrder, by simp [orderState, emptyState], rfl⟩

/-- C8: the guards of `update_order_status`, in order of strength — a
non-admin caller is rejected with the store untouched regardless of the
requested status or the order's existence; an admin with a status outside
the five-word vocabulary gets the invalid-status error; an admin with a
valid status but no matching order gets the not-found error. The store is
returned unchanged in every failure case. -/
theorem c8_status_guards (st : State) (user : User) (oid : Nat)
    (status : String) :
    (user.role ≠ "admin" →
      update_order_status st user oid status =
        (st, Except.error StatusErr.adminRequired)) ∧
    (user.role = "admin" → status ∉ validStatuses →
      update_order_status st user oid status =
        (st, Except.error StatusErr.invalidStatus)) ∧
    (user.role = "admin" → status ∈ validStatuses →
      (∀ o ∈ st.orders, o.id ≠ oid) →
      update_order_status st user oid status =
        (st, Except.error StatusErr.orderNotFound)) := by
  refine ⟨?_, ?_, ?_⟩
  · intro h
    simp only [update_order_status]
    rw [if_pos h]
  · intro h hns
    simp only [update_order_status]
    rw [if_neg (by simp [h]), if_pos hns]
  · intro h hs hno
    have hany : st.orders.any (fun o => o.id == oid) = false :=
      List.any_eq_false.mpr (fun o ho => by simp [hno o ho])
    simp only [update_order_status]
    rw [if_neg (by simp [h]), if_neg (by simp [hs]), if_neg (by simp [hany])]

/-- C8 witness: a buyer's attempt is rejected for role alone; an admin's
`"Bogus"` target is rejected as invalid; an admin's `"Shipped"` on the
nonexistent order 99 is rejected as not found. -/
theorem c8_status_guards_witness :
    update_order_status orderState buyerUser 0 "Shipped" =
      (orderState, Except.error StatusErr.adminRequired) ∧
    update_order_status orderState adminUser 0 "Bogus" =
      (orderState, Except.error StatusErr.invalidStatus) ∧
    update_order_status orderState adminUser 99 "Shipped" =
      (orderState, Except.error StatusErr.orderNotFound) :=
  ⟨(c8_status_guards orderState buyerUser 0 "Shipped").1 (by simp [buyerUser]),
    (c8_status_guards orderState adminUser 0 "Bogus").2.1 rfl
      (by simp [validStatuses]),
    (c8_status_guards orderState adminUser 99 "Shipped").2.2 rfl
      (by simp [validStatuses])
      (by simp [orderState, emptyState, placedOrder])⟩

/-- C7: an empty cart fails with the empty-cart error, and a cart with a
dangling or unavailable listing fails with a not-found/unavailable error;
in both cases the returned store is exactly the input store — zero orders
and zero transactions are persisted. -/
theorem c7_failed_checkout_writes_nothing (st : State) (user : User)
    (items : List CartItem) (gid : String) :
    (items = [] →
      create_order st user items gid = (st, Except.error CreateErr.emptyCart)) ∧
    ((∃ it ∈ items, itemRejected st it) →
      ∃ e, create_order st user items gid = (st, Except.error e)) := by
  constructor
  · rintro rfl
    simp [create_order]
  · intro hex
    obtain ⟨e, he⟩ := buildOrders_err st user items st.nextId hex
    cases items with
    | nil =>
      obtain ⟨it, hit, _⟩ := hex
      simp at hit
    | cons a b => exact ⟨e, by simp [create_order, he]⟩

/-- C7 witness: the empty cart on an empty store, and a cart holding the
unapproved listing 0, both fail and return the store unchanged. -/
theorem c7_failed_checkout_writes_nothing_witness :
    create_order emptyState buyerUser [] "og-0" =
      (emptyState, Except.error CreateErr.emptyCart) ∧
    ∃ e, create_order unapprovedState buyerUser [⟨0, 1⟩] "og-0" =
      (unapprovedState, Except.error e) :=
  ⟨(c7_failed_checkout_writes_nothing emptyState buyerUser [] "og-0").1 rfl,
    (c7_failed_checkout_writes_nothing unapprovedState buyerUser
        [⟨0, 1⟩] "og-0").2
      ⟨⟨0, 1⟩, by simp,
        Or.inr ⟨{ listedProduct 0 100 with is_approved := false },
          by simp [unapprovedState, emptyState, List.find?, listedProduct],
          Or.inr rfl⟩⟩⟩

/-- C6: on both checkout endpoints, the amount handed to the payment
gateway is `int(total_amount * 100)` — the minor-unit value of the charged
amount truncated toward zero; for a nonnegative total this is the floor,
so any fractional minor-unit remainder is dropped (strictly below the
exact value whenever a fraction exists), never rounded up. -/
theorem c6_gateway_amount_truncated :
    (∀ (st : State) (user : User) (items : List CartItem) (gid : String)
        (st' : State) (resp : CreateResp),
      create_order st user items gid = (st', Except.ok resp) →
      st'.gatewayOrders = st.gatewayOrders ++ [(gid, pyInt (resp.amount * 100))]) ∧
    (∀ (st : State) (user : User) (filename material : String)
        (volume_cm3 : ℚ) (quantity : Nat) (gid : String)
        (st' : State) (resp : CreateResp),
      create_custom_print_order st user filename material volume_cm3 quantity
          gid = (st', Except.ok resp) →
      st'.gatewayOrders = st.gatewayOrders ++ [(gid, pyInt (resp.amount * 100))]) ∧
    (∀ t : ℚ, 0 ≤ t →
      pyInt (t * 100) = ⌊t * 100⌋ ∧
      (pyInt (t * 100) : ℚ) ≤ t * 100 ∧
      ((pyInt (t * 100) : ℚ) ≠ t * 100 → (pyInt (t * 100) : ℚ) < t * 100)) := by
  refine ⟨?_, ?_, ?_⟩
  · intro st user items gid st' resp h
    simp only [create_order] at h
    split_ifs at h with h1
    · simp at h
    · split at h
      · simp at h
      · split at h
        · simp at h
        · simp only [Prod.mk.injEq, Except.ok.injEq] at h
          obtain ⟨hst, hresp⟩ := h
          subst hst
          rw [← hresp]
  · intro st user filename material volume_cm3 quantity gid st' resp h
    simp only [create_custom_print_order, Prod.mk.injEq, Except.ok.injEq] at h
    obtain ⟨hst, hresp⟩ := h
    subst hst
    rw [← hresp]
  · intro t ht
    have h100 : (0 : ℚ) ≤ t * 100 := by positivity
    have hfl : pyInt (t * 100) = ⌊t * 100⌋ := by
      simp only [pyInt, if_pos h100]
    refine ⟨hfl, ?_, ?_⟩
    · rw [hfl]; exact Int.floor_le _
    · intro hne
      rw [hfl] at hne ⊢
      exact lt_of_le_of_ne (Int.floor_le _) hne

set_option maxHeartbeats 1000000 in
/-- C6 witness: a cart totalling 1.507 is charged 150 minor units (150.7
truncated, not rounded to 151), and a custom print is charged its exact
integral minor-unit value. -/
theorem c6_gateway_amount_truncated_witness :
    ((create_order truncState buyerUser [⟨0, 1⟩] "og-2").1.gatewayOrders =
      truncState.gatewayOrders ++
        [("og-2", pyInt (((1507 : ℚ)/1000) * 100))] ∧
      pyInt (((1507 : ℚ)/1000) * 100) = 150 ∧
      (pyInt (((1507 : ℚ)/1000) * 100) : ℚ) < (1507 : ℚ)/1000 * 100) ∧
    ((create_custom_print_order emptyState buyerUser "f.stl" "PLA" 1 1
        "og-3").1.gatewayOrders =
      emptyState.gatewayOrders ++ [("og-3", pyInt (((13 : ℚ)/2) * 100))] ∧
      pyInt (((13 : ℚ)/2) * 100) = 650) := by
  have h2 : (create_order truncState buyerUser [⟨0, 1⟩] "og-2").2 =
      Except.ok ⟨"og-2", 1507/1000, "INR"⟩ := by
    norm_num [create_order, buildOrders, truncState, emptyState,
      listedProduct, sellerUser, buyerUser, List.find?]
  have hcart : create_order truncState buyerUser [⟨0, 1⟩] "og-2" =
      ((create_order truncState buyerUser [⟨0, 1⟩] "og-2").1,
        Except.ok ⟨"og-2", 1507/1000, "INR"⟩) := by
    rw [← h2]
  have h3 : (create_custom_print_order emptyState buyerUser "f.stl" "PLA"
        1 1 "og-3").2 = Except.ok ⟨"og-3", 13/2, "INR"⟩ := by
    norm_num [create_custom_print_order, calculate_price, materialRate,
      defaultRoyaltyPercent, round2, roundHalfEven, emptyState, buyerUser]
  have hcustom : create_custom_print_order emptyState buyerUser "f.stl" "PLA"
        1 1 "og-3" =
      ((create_custom_print_order emptyState buyerUser "f.stl" "PLA" 1 1
          "og-3").1, Except.ok ⟨"og-3", 13/2, "INR"⟩) := by
    rw [← h3]
  refine ⟨⟨?_, ?_, ?_⟩, ?_, ?_⟩
  · exact c6_gateway_amount_truncated.1 truncState buyerUser [⟨0, 1⟩] "og-2"
      _ _ hcart
  · norm_num [pyInt]
  · have := (c6_gateway_amount_truncated.2.2 (1507/1000) (by norm_num)).2.2
    exact this (by norm_num [pyInt])
  · exact c6_gateway_amount_truncated.2.1 emptyState buyerUser "f.stl" "PLA"
      1 1 "og-3" _ _ hcustom
  · norm_num [pyInt]

/-- C5: a non-empty cart whose listings all resolve and are published and
approved checks out as one batch: exactly one new order per cart line, all
stamped with the single gateway order id, exactly one new `created`
transaction carrying that id, the batch total, and the first order as
representative; the charged amount equals the sum over lines of
`final_price * quantity`. -/
theorem c5_checkout_batch (st : State) (user : User) (items : List CartItem)
    (gid : String) (hne : items ≠ [])
    (hall : ∀ it ∈ items, ∃ p,
        st.products.find? (fun q => q.id == it.product_id) = some p ∧
        p.is_published = true ∧ p.is_approved = true) :
    ∃ st' newOrders txn,
      create_order st user items gid =
        (st', Except.ok ⟨gid, cartAmount st items, "INR"⟩) ∧
      st'.orders = st.orders ++ newOrders ∧
      newOrders.length = items.length ∧
      (∀ o ∈ newOrders, o.razorpay_order_id = some gid ∧
        o.status = "Order placed" ∧ o.razorpay_payment_id = none) ∧
      st'.transactions = st.transactions ++ [txn] ∧
      txn.razorpay_order_id = gid ∧ txn.status = "created" ∧
      txn.amount = cartAmount st items ∧ txn.razorpay_payment_id = none ∧
      ∀ o1, newOrders.head? = some o1 → txn.order_id = o1.id := by
  obtain ⟨os, hbo, hlen, hhead⟩ := buildOrders_ok st user items st.nextId hall
  obtain ⟨o1, os', rfl⟩ : ∃ o1 os', os = o1 :: os' := by
    cases os with
    | nil =>
      cases items with
      | nil => exact absurd rfl hne
      | cons a b => simp at hlen
    | cons a b => exact ⟨a, b, rfl⟩
  have hst : ∀ o ∈ o1 :: os', o.status = "Order placed" ∧
      o.razorpay_order_id = none ∧ o.razorpay_payment_id = none ∧
      o.buyer_id = user.id :=
    buildOrders_status st user items st.nextId _ _ hbo
  have hne' : items.isEmpty = false := by
    cases items with
    | nil => exact absurd rfl hne
    | cons a b => rfl
  have hrun : create_order st user items gid =
      ({ st with
          orders := st.orders ++ (o1 :: os').map
            (fun o => { o with razorpay_order_id := some gid })
          transactions := st.transactions ++
            [{ id := st.nextId + ((o1 :: os').map
                  (fun o => { o with razorpay_order_id := some gid })).length
               order_id := o1.id
               razorpay_order_id := gid
               razorpay_payment_id := none
               amount := cartAmount st items
               currency := "INR"
               status := "created" }]
          gatewayOrders := st.gatewayOrders ++
            [(gid, pyInt (cartAmount st items * 100))]
          nextId := st.nextId + ((o1 :: os').map
            (fun o => { o with razorpay_order_id := some gid })).length + 1 },
        Except.ok ⟨gid, cartAmount st items, "INR"⟩) := by
    simp [create_order, hne', hbo]
  refine ⟨_, (o1 :: os').map (fun o => { o with razorpay_order_id := some gid }),
    _, hrun, rfl, by simpa using hlen, ?_, rfl, rfl, rfl, rfl, rfl, ?_⟩
  · intro o ho
    obtain ⟨x, hx, rfl⟩ := List.mem_map.mp ho
    exact ⟨rfl, (hst x hx).1, (hst x hx).2.2.1⟩
  · intro o1' h1
    rw [List.map_cons, List.head?_cons, Option.some.injEq] at h1
    rw [← h1]

/-- C5 witness: the spec's example — listing 0 at 100 (quantity 2) and
listing 1 at 50 (quantity 1) total 250 and produce exactly 2 orders and
1 transaction under one gateway order id. -/
theorem c5_checkout_batch_witness :
    cartAmount shopState [⟨0, 2⟩, ⟨1, 1⟩] = 250 ∧
    ∃ st' newOrders txn,
      create_order shopState buyerUser [⟨0, 2⟩, ⟨1, 1⟩] "og-5" =
        (st', Except.ok ⟨"og-5", cartAmount shopState [⟨0, 2⟩, ⟨1, 1⟩], "INR"⟩) ∧
      st'.orders = shopState.orders ++ newOrders ∧
      newOrders.length = 2 ∧
      (∀ o ∈ newOrders, o.razorpay_order_id = some "og-5" ∧
        o.status = "Order placed" ∧ o.razorpay_payment_id = none) ∧
      st'.transactions = shopState.transactions ++ [txn] ∧
      txn.razorpay_order_id = "og-5" ∧ txn.status = "created" ∧
      txn.amount = cartAmount shopState [⟨0, 2⟩, ⟨1, 1⟩] ∧
      txn.razorpay_payment_id = none ∧
      ∀ o1, newOrders.head? = some o1 → txn.order_id = o1.id := by
  constructor
  · have e0 : shopState.products.find? (fun q => q.id == (0 : Nat)) =
        some (listedProduct 0 100) := by
      simp [shopState, emptyState, List.find?, listedProduct]
    have e1 : shopState.products.find? (fun q => q.id == (1 : Nat)) =
        some (listedProduct 1 50) := by
      simp [shopState, emptyState, List.find?, listedProduct]
    norm_num [cartAmount, e0, e1, listedProduct]
  · exact c5_checkout_batch shopState buyerUser [⟨0, 2⟩, ⟨1, 1⟩] "og-5"
      (by simp)
      (by
        intro it hit
        rcases List.mem_cons.mp hit with rfl | hit
        · exact ⟨listedProduct 0 100,
            by simp [shopState, emptyState, List.find?, listedProduct],
            rfl, rfl⟩
        rcases List.mem_cons.mp hit with rfl | hit
        · exact ⟨listedProduct 1 50,
            by simp [shopState, emptyState, List.find?, listedProduct],
            rfl, rfl⟩
        · simp at hit)

/-- C3 counterexample: both verifications of the `og-1` batch succeed,
the first sends 2 emails (buyer confirmation + seller notification for the
one order), and the second call sends them AGAIN — 4 emails in total — so
re-invoking verification is not email-free as the claim states. -/
theorem c3_counterexample :
    (verify_payment orderState buyerUser "og-1" "pay-1" true).2 =
      Except.ok "Payment verified successfully" ∧
    (verify_payment (verify_payment orderState buyerUser "og-1" "pay-1"
        true).1 buyerUser "og-1" "pay-1" true).2 =
      Except.ok "Payment verified successfully" ∧
    (verify_payment orderState buyerUser "og-1" "pay-1" true).1.emails.length
      = 2 ∧
    (verify_payment (verify_payment orderState buyerUser "og-1" "pay-1"
        true).1 buyerUser "og-1" "pay-1" true).1.emails.length = 4 ∧
    (verify_payment (verify_payment orderState buyerUser "og-1" "pay-1"
        true).1 buyerUser "og-1" "pay-1" true).1.emails ≠
      (verify_payment orderState buyerUser "og-1" "pay-1" true).1.emails := by
  refine ⟨rfl, rfl, rfl, rfl, fun heq => ?_⟩
  have hlen := congrArg List.length heq
  rw [show (verify_payment (verify_payment orderState buyerUser "og-1"
      "pay-1" true).1 buyerUser "og-1" "pay-1" true).1.emails.length = 4
      from rfl,
    show (verify_payment orderState buyerUser "og-1" "pay-1"
      true).1.emails.length = 2 from rfl] at hlen
  norm_num at hlen

/-- C3 (amended): re-invoking `verify_payment` on an already-verified
gateway order id is idempotent on the persistent store — orders,
transactions, products and users are exactly as after the first call — but
NOT on notifications: the second call appends the whole confirmation
batch (one buyer email and one seller email per matching order) again. -/
theorem c3_second_verify_idempotent_but_resends (st : State) (user : User)
    (gid pid : String) :
    (verify_payment (verify_payment st user gid pid true).1 user gid pid
        true).1.orders = (verify_payment st user gid pid true).1.orders ∧
    (verify_payment (verify_payment st user gid pid true).1 user gid pid
        true).1.transactions =
      (verify_payment st user gid pid true).1.transactions ∧
    (verify_payment (verify_payment st user gid pid true).1 user gid pid
        true).1.products = (verify_payment st user gid pid true).1.products ∧
    (verify_payment (verify_payment st user gid pid true).1 user gid pid
        true).1.users = (verify_payment st user gid pid true).1.users ∧
    (verify_payment (verify_payment st user gid pid true).1 user gid pid
        true).1.emails =
      (verify_payment st user gid pid true).1.emails ++
        confirmationEmails (verify_payment st user gid pid true).1.users user
          (verify_payment st user gid pid true).1.orders gid := by
  have hmap : ∀ l : List Order,
      (l.map (payOrder gid pid)).map (payOrder gid pid) =
        l.map (payOrder gid pid) := by
    intro l
    rw [List.map_map]
    exact List.map_congr_left fun o _ => payOrder_idem gid pid o
  have htxn := updateFirst_idem (fun t => t.razorpay_order_id == gid)
    (fun t => { t with razorpay_payment_id := some pid, status := "completed" })
    (fun t => rfl) (fun t => rfl) st.transactions
  refine ⟨hmap st.orders, htxn, rfl, rfl, ?_⟩
  show (verify_payment st user gid pid true).1.emails ++
      confirmationEmails st.users user
        ((st.orders.map (payOrder gid pid)).map (payOrder gid pid)) gid =
    (verify_payment st user gid pid true).1.emails ++
      confirmationEmails (verify_payment st user gid pid true).1.users user
        (verify_payment st user gid pid true).1.orders gid
  rw [hmap st.orders]
  rfl

/-- C10: successful verification stamps the payment id and status
`"Order placed"` on exactly the orders carrying the gateway order id —
every other order and every other Order field (amount, quantity, buyer,
seller, listing, name, gateway order id) is untouched — marks the matching
transaction `completed` with the payment id while preserving its amount
and representative order, leaves non-matching transactions in place, and
the status written is the very value every order is created with, so the
paid state is indistinguishable from the initial one. -/
theorem c10_verify_sets_initial_status (st : State) (user : User)
    (gid pid : String) :
    (verify_payment st user gid pid true).2 =
      Except.ok "Payment verified successfully" ∧
    List.Forall₂ (fun o o' =>
        o'.id = o.id ∧ o'.buyer_id = o.buyer_id ∧
        o'.seller_id = o.seller_id ∧ o'.product_id = o.product_id ∧
        o'.product_name = o.product_name ∧ o'.quantity = o.quantity ∧
        o'.total_amount = o.total_amount ∧
        o'.razorpay_order_id = o.razorpay_order_id ∧
        (o.razorpay_order_id = some gid →
          o'.status = "Order placed" ∧ o'.razorpay_payment_id = some pid) ∧
        (o.razorpay_order_id ≠ some gid → o' = o))
      st.orders (verify_payment st user gid pid true).1.orders ∧
    (∀ t, st.transactions.find? (fun x => x.razorpay_order_id == gid)
        = some t →
      (verify_payment st user gid pid true).1.transactions.find?
          (fun x => x.razorpay_order_id == gid) =
        some { t with razorpay_payment_id := some pid, status := "completed" }) ∧
    (∀ t ∈ st.transactions, t.razorpay_order_id ≠ gid →
      t ∈ (verify_payment st user gid pid true).1.transactions) ∧
    (∀ (st₂ : State) (user₂ : User) (items : List CartItem) (n : Nat)
        (os : List Order) (tot : ℚ),
      buildOrders st₂ user₂ items n = Except.ok (os, tot) →
      ∀ o ∈ os, o.status = "Order placed") := by
  refine ⟨rfl, ?_, ?_, ?_, ?_⟩
  · refine forall₂_map_self _ _ _ (fun o _ => ?_)
    by_cases hm : (o.razorpay_order_id == some gid) = true
    · have hrid : o.razorpay_order_id = some gid := by simpa using hm
      simp [payOrder, hm, hrid]
    · have hrid : ¬o.razorpay_order_id = some gid := by simpa using hm
      simp [payOrder, hm, hrid]
  · intro t ht
    exact updateFirst_find (fun x => x.razorpay_order_id == gid)
      (fun t => { t with razorpay_payment_id := some pid, status := "completed" })
      (fun x => rfl) st.transactions t ht
  · intro t ht hne
    exact mem_updateFirst_of_neg (fun x => x.razorpay_order_id == gid)
      (fun t => { t with razorpay_payment_id := some pid, status := "completed" })
      st.transactions t ht (by simp [hne])
  · intro st₂ user₂ items n os tot h o ho
    exact (buildOrders_status st₂ user₂ items n os tot h o ho).1

/-- C10 witness: verifying the `og-1` batch marks its `created`
transaction completed with payment id `pay-1`, amount and representative
order preserved. -/
theorem c10_verify_sets_initial_status_witness :
    (verify_payment orderState buyerUser "og-1" "pay-1"
        true).1.transactions.find?
        (fun x => x.razorpay_order_id == "og-1") =
      some { createdTxn with razorpay_payment_id := some "pay-1", status := "completed" } :=
  (c10_verify_sets_initial_status orderState buyerUser "og-1"
      "pay-1").2.2.1 createdTxn
    (by simp [orderState, emptyState, List.find?, createdTxn])

end Fablab
